import Mathlib

/-!
# slink2dali: SeedLink to DataLink forwarder

A shallow embedding of `src/slink2dali.c` (`main`, `sendrecord`,
`parameter_proc`, `getoptval`) and theorems about it.

The program talks to three libraries (libslink, libdali, libmseed) whose
sources are not part of `src/`.  Calls into them are recorded as `Event`s;
what they answer is read from an `Env` of oracles, indexed by how many
times the call has been made, and from a `LibMSeed` record describing the
Mini-SEED header access.  Loops that the C code can run for ever take a
fuel argument; a run that used up its fuel is marked `finished := false`
and keeps the events produced so far.
-/

namespace Slink2dali

/-- Bytes of a record, or the characters of a C string (the end of the list
stands for the terminating NUL). -/
abbrev Bytes := List Char

/-- Size of a SeedLink Mini-SEED record, `SLRECSIZE` of libslink.h (the
header is not under `src/`; 512 is its value there). -/
def SLRECSIZE : Nat := 512

/-- Packet type of a waveform data record, `SLDATA` of libslink.h; the
first index of the table `type[]` of `main`. -/
def SLDATA : Int := 0

/-- First packet type that is not a data record, `SLNUM` of libslink.h; the
index of "Request" in the table `type[]` of `main`. -/
def SLNUM : Int := 6

/-- Packet type of a keep-alive packet, `SLKEEP` of libslink.h; the index
of "KeepAlive" in the table `type[]` of `main`. -/
def SLKEEP : Int := 9

/-- Return code of a successful `msr_unpack`, `MS_NOERROR` of libmseed.h. -/
def MS_NOERROR : Int := 0

/-- The table `type[]` of `main`, in the order of the packet type values. -/
def typeTable : List String :=
  ["Data", "Detection", "Calibration", "Timing", "Message", "General",
   "Request", "Info", "Info (terminated)", "KeepAlive"]

/-- Calls that leave the program, in the order in which they are made.
For `sl_log` and `stderr` the format string is recorded. -/
inductive Event where
  | stderr (msg : String)
  | sl_log (level : Nat) (msg : String)
  | usage
  | sl_read_streamlist (file : String)
  | sl_parse_streamlist (streams : String)
  | sl_setuniparams
  | sl_recoverstate (file : String)
  | dl_connect (ok : Bool)
  | dl_disconnect
  | sl_collect (seqnum : Option Int)
  | msr_unpack (record : Bytes) (rv : Int)
  | dl_write (record : Bytes) (reclen : Nat) (streamid : Bytes)
      (starttime endtime : Int) (ack : Int) (ok : Bool)
  | sleep (seconds : Nat)
  | sl_savestate (file : String)
  | sl_disconnect
  deriving DecidableEq, Repr

/-- One packet handed out by `sl_collect`: what `sl_packettype` and
`sl_sequence` say about it, and its `msrecord`. -/
structure SLpacket where
  ptype : Int
  seqnum : Int
  msrecord : Bytes
  deriving DecidableEq, Repr

/-- The file-scope variables of slink2dali.c that `parameter_proc` sets,
together with the time window it stores in `slconn`. -/
structure Config where
  verbose : Int := 0
  stateint : Int := 0
  netcode : Option String := none
  statefile : Option String := none
  writeack : Int := 0
  dialup : Int := 0
  begin_time : Option String := none
  end_time : Option String := none
  deriving DecidableEq, Repr

/-- Answers of the outside world.  `dl_write_ok n` is the outcome of the
`n`-th call of `dl_write` (counted from 0), `dl_write_keeps_link n` tells
whether `dlconn->link` is still set after it, `dl_connect_ok n` is the
outcome of the `n`-th `dl_connect`, `terminate n` the value of
`slconn->terminate` the `n`-th time `main` reads it. -/
structure Env where
  dl_write_ok : Nat → Bool
  dl_write_keeps_link : Nat → Bool
  dl_connect_ok : Nat → Bool
  terminate : Nat → Bool
  sl_link_at_exit : Bool
  sl_newslcd_ok : Bool
  dl_newdlcp_ok : Bool
  sl_parse_streamlist : String → Int
  sl_recoverstate : String → Int

/-- What `main` holds while it runs: how often the oracles were asked,
whether `dlconn->link` differs from -1, and the local `packetcnt` (an `int`
in C; it is modelled without wrap-around). -/
structure State where
  nwrite : Nat := 0
  nconnect : Nat := 0
  nterm : Nat := 0
  dllink : Bool := false
  packetcnt : Int := 0
  deriving DecidableEq, Repr

/-- Modelled from the spec: the Mini-SEED access of libmseed that
`sendrecord` uses (`struct fsdh_s`, `ms_strncpopen`, `msr_unpack`,
`msr_srcname`, `msr_endtime`).  The offset of the 2-byte network field
in the fixed header and the byte used for padding are parameters;
`unpack_status` is the return code of `msr_unpack` on the bytes, and the
remaining fields are what the parsed header exposes. -/
structure LibMSeed where
  network_offset : Nat
  padchar : Char
  unpack_status : Bytes → Int
  station : Bytes → Bytes
  location : Bytes → Bytes
  channel : Bytes → Bytes
  starttime : Bytes → Int
  endtime : Bytes → Int

/-- The parsed header, `MSRecord` of libmseed, as far as `sendrecord` reads
it; `endtime` is the value `msr_endtime` returns for it. -/
structure MSRecord where
  network : Bytes
  station : Bytes
  location : Bytes
  channel : Bytes
  starttime : Int
  endtime : Int
  deriving DecidableEq, Repr

/-- Modelled from the spec: `ms_strncpopen (dest, source, length)` of
libmseed, the in-place field rewrite "with padding to a fixed width":
the `length` bytes written are the characters of `source`, padded once
`source` has ended. -/
def ms_strncpopen (pad : Char) (source : Bytes) (length : Nat) : Bytes :=
  (List.range length).map (fun i => source.getD i pad)

/-- Store `bytes` into `record` from offset `off` on. -/
def poke : Bytes → Nat → Bytes → Bytes
  | record, _, [] => record
  | record, off, b :: bs => poke (record.set off b) (off + 1) bs

/-- The 2-byte network field of the fixed header of `record`. -/
def networkField (L : LibMSeed) (record : Bytes) : Bytes :=
  (record.drop L.network_offset).take 2

/-- Modelled from the spec: `msr_unpack (record, reclen, &msr, 0, 0)` of
libmseed: "parse the header into a structured form", the network code
being the network field of the bytes; a return code other than
`MS_NOERROR` is a parse failure. -/
def msr_unpack (L : LibMSeed) (record : Bytes) : Except Int MSRecord :=
  if L.unpack_status record = MS_NOERROR then
    .ok { network := networkField L record
          station := L.station record
          location := L.location record
          channel := L.channel record
          starttime := L.starttime record
          endtime := L.endtime record }
  else .error (L.unpack_status record)

/-- Modelled from the spec: `msr_srcname (msr, srcname, 0)` of libmseed,
the name `NET_STA_LOC_CHAN` "composed of network code, station code,
location code, channel code". -/
def msr_srcname (msr : MSRecord) : Bytes :=
  msr.network ++ '_' :: msr.station ++ '_' :: msr.location ++ '_' :: msr.channel

/-- Modelled from the spec: `msr_endtime (msr)` of libmseed. -/
def msr_endtime (msr : MSRecord) : Int := msr.endtime

/-- What a call of `sendrecord` leaves behind: its return value, the
record buffer (it is rewritten in place), the events and the state. -/
structure SendResult where
  rv : Int
  record : Bytes
  events : List Event
  state : State
  deriving DecidableEq, Repr

/-- The block "Translate network code if supplied" of `sendrecord`
(lines 171-175): the record buffer after it. -/
def translateNetcode (L : LibMSeed) (cfg : Config) (record : Bytes) : Bytes :=
  match cfg.netcode with
  | some nc => poke record L.network_offset (ms_strncpopen L.padchar nc.toList 2)
  | none => record

/-- The function `sendrecord (record, reclen)` of slink2dali.c. -/
def sendrecord (L : LibMSeed) (cfg : Config) (env : Env)
    (record : Bytes) (reclen : Nat) (st : State) : SendResult :=
  -- Translate network code if supplied
  let record1 := translateNetcode L cfg record
  -- Parse Mini-SEED header
  match msr_unpack L record1 with
  | .error rv =>
    { rv := -1, record := record1, state := st
      events := [.msr_unpack record1 rv, .sl_log 2 "Error unpacking %s: %s"] }
  | .ok msr =>
    -- Generate stream ID for this record: NET_STA_LOC_CHAN/MSEED
    let streamid := msr_srcname msr ++ "/MSEED".toList
    -- Determine high precision end time
    let endtime := msr_endtime msr
    -- Send record to server
    let ok := env.dl_write_ok st.nwrite
    let st1 := { st with nwrite := st.nwrite + 1
                         dllink := st.dllink && (ok || env.dl_write_keeps_link st.nwrite) }
    { rv := if ok then 0 else -1, record := record1, state := st1
      events := [.msr_unpack record1 MS_NOERROR,
                 .dl_write record1 reclen streamid msr.starttime endtime cfg.writeack ok] }

/-- Outcome of a loop: the events it produced, the state it reached and
whether it came to its end within the fuel. -/
structure Run where
  events : List Event
  state : State
  finished : Bool
  deriving DecidableEq, Repr

/-- The body of the retry loop of `main` after a failed `sendrecord`
(lines 109-120): disconnect if linked, reconnect, sleep on failure. -/
def reconnect (cfg : Config) (env : Env) (st : State) : List Event × State :=
  let ev0 : List Event :=
    if cfg.verbose ≠ 0 then [.sl_log 1 "Re-connecting to DataLink server\n"] else []
  -- Re-connect to DataLink server and sleep if error connecting
  let ev1 : List Event := if st.dllink then [.dl_disconnect] else []
  let ok := env.dl_connect_ok st.nconnect
  let st1 := { st with nconnect := st.nconnect + 1, dllink := ok }
  let ev2 : List Event :=
    if ok then [.dl_connect true]
    else [.dl_connect false,
          .sl_log 2 "Error re-connecting to DataLink server, sleeping 10 seconds\n",
          .sleep 10]
  (ev0 ++ ev1 ++ ev2, st1)

/-- The loop `while ( sendrecord (...) ) { ... }` of `main` (lines 107-124),
run for at most `fuel` calls of `sendrecord`. -/
def retryLoop (L : LibMSeed) (cfg : Config) (env : Env) :
    Nat → Bytes → State → Run
  | 0, _, st => { events := [], state := st, finished := false }
  | fuel + 1, record, st =>
    let s := sendrecord L cfg env record SLRECSIZE st
    if s.rv = 0 then { events := s.events, state := s.state, finished := true }
    else
      let (ev, st1) := reconnect cfg env s.state
      let st2 := { st1 with nterm := st1.nterm + 1 }
      if env.terminate st1.nterm then
        { events := s.events ++ ev, state := st2, finished := true }
      else
        let r := retryLoop L cfg env fuel s.record st2
        { events := s.events ++ ev ++ r.events, state := r.state, finished := r.finished }

/-- The log line of `main` for a received packet when `verbose > 1`. -/
def receivedLog (cfg : Config) (p : SLpacket) : List Event :=
  if cfg.verbose > 1 then
    if p.ptype = SLKEEP then [.sl_log 1 "Keep alive packet received\n"]
    else [.sl_log 1 "Received %s packet, SeedLink sequence %d\n"]
  else []

/-- The part of the loop body of `main` that saves intermediate state files
(lines 129-137). -/
def checkpoint (cfg : Config) (st : State) : List Event × State :=
  match cfg.statefile with
  | some file =>
    if cfg.stateint ≠ 0 then
      if st.packetcnt + 1 ≥ cfg.stateint then
        ([.sl_savestate file], { st with packetcnt := 0 })
      else ([], { st with packetcnt := st.packetcnt + 1 })
    else ([], st)
  | none => ([], st)

/-- One pass through the body of `while ( sl_collect (slconn, &slpack) )`
for the packet `p` (lines 92-137). -/
def loopBody (L : LibMSeed) (cfg : Config) (env : Env) (fuel : Nat)
    (p : SLpacket) (st : State) : Run :=
  let ev0 := Event.sl_collect (some p.seqnum) :: receivedLog cfg p
  -- Send record to the DataLink server if not internal types, INFO or keep alive
  if SLDATA ≤ p.ptype ∧ p.ptype < SLNUM then
    let r := retryLoop L cfg env fuel p.msrecord st
    if r.finished then
      let st1 := { r.state with packetcnt := r.state.packetcnt + 1 }
      let (ev, st2) := checkpoint cfg st1
      { events := ev0 ++ r.events ++ ev, state := st2, finished := true }
    else { events := ev0 ++ r.events, state := r.state, finished := false }
  else
    let (ev, st2) := checkpoint cfg st
    { events := ev0 ++ ev, state := st2, finished := true }

/-- The loop `while ( sl_collect (slconn, &slpack) )` of `main` over the
packets that `sl_collect` hands out before it returns 0. -/
def collectLoop (L : LibMSeed) (cfg : Config) (env : Env) (fuel : Nat) :
    List SLpacket → State → Run
  | [], st => { events := [.sl_collect none], state := st, finished := true }
  | p :: ps, st =>
    let b := loopBody L cfg env fuel p st
    if b.finished then
      let r := collectLoop L cfg env fuel ps b.state
      { events := b.events ++ r.events, state := r.state, finished := r.finished }
    else b

/-! ## Command line -/

/-- Values collected by the argument loop of `parameter_proc`: the
file-scope variables it assigns and its locals. -/
structure Opts where
  verbose : Int := 0
  dialup : Int := 0
  netcode : Option String := none
  statefile : Option String := none
  streamfile : Option String := none
  multiselect : Option String := none
  selectors : Option String := none
  timewin : Option String := none
  sladdress : Option String := none
  dladdress : Option String := none
  deriving DecidableEq, Repr

/-- A call of `exit (code)` and what was printed before it. -/
structure Exit where
  events : List Event
  code : Int
  deriving DecidableEq, Repr

/-- Conversion of an integer to `short int` (16 bits, two's complement). -/
def toShort (x : Int) : Int := (x + 32768) % 65536 - 32768

/-- Conversion of an unsigned value to `int` (32 bits, two's complement). -/
def toInt32 (x : Nat) : Int :=
  if x % 4294967296 < 2147483648 then (x % 4294967296 : Nat)
  else ((x % 4294967296 : Nat) : Int) - 4294967296

/-- Length of the initial run of the character `c`, `strspn (s, "c")`. -/
def strspn (s : Bytes) (c : Char) : Nat := (s.takeWhile (· = c)).length

/-- The function `getoptval (argcount, argvec, argopt)`: `rest` holds the arguments that
follow `argvec[argopt]`.  The value is the next argument unless there is
none or it starts with '-'; then the program exits with status 1.  (The
test for a NULL `argvec[argopt]` cannot succeed for `argopt < argcount`.) -/
def getoptval (rest : List String) : Except Exit String :=
  match rest with
  | v :: _ =>
    if v.toList.head? ≠ some '-' then .ok v
    else .error ⟨[.stderr "Option %s requires a value\n"], 1⟩
  | [] => .error ⟨[.stderr "Option %s requires a value\n"], 1⟩

/-- The loop `for (optind = 1; optind < argcount; optind++)` of
`parameter_proc` over the arguments from `argvec[optind]` on. -/
def argLoop : List String → Opts → Except Exit Opts
  | [], o => .ok o
  | a :: rest, o =>
    if a = "-V" then .error ⟨[.stderr "%s version: %s\n"], 0⟩
    else if a = "-h" then .error ⟨[.usage], 0⟩
    else if a.toList.take 2 = ['-', 'v'] then
      argLoop rest { o with verbose := toShort (o.verbose + strspn (a.toList.drop 1) 'v') }
    else if a = "-l" then
      match getoptval rest, rest with
      | .ok v, _ :: rest1 => argLoop rest1 { o with streamfile := some v }
      | .ok _, [] => .ok o  -- not reached: getoptval fails when nothing follows
      | .error e, _ => .error e
    else if a = "-s" then
      match getoptval rest, rest with
      | .ok v, _ :: rest1 => argLoop rest1 { o with selectors := some v }
      | .ok _, [] => .ok o
      | .error e, _ => .error e
    else if a = "-S" then
      match getoptval rest, rest with
      | .ok v, _ :: rest1 => argLoop rest1 { o with multiselect := some v }
      | .ok _, [] => .ok o
      | .error e, _ => .error e
    else if a = "-d" then argLoop rest { o with dialup := 1 }
    else if a = "-N" then
      match getoptval rest, rest with
      | .ok v, _ :: rest1 => argLoop rest1 { o with netcode := some v }
      | .ok _, [] => .ok o
      | .error e, _ => .error e
    else if a = "-x" then
      match getoptval rest, rest with
      | .ok v, _ :: rest1 => argLoop rest1 { o with statefile := some v }
      | .ok _, [] => .ok o
      | .error e, _ => .error e
    else if a = "-tw" then
      match getoptval rest, rest with
      | .ok v, _ :: rest1 => argLoop rest1 { o with timewin := some v }
      | .ok _, [] => .ok o
      | .error e, _ => .error e
    else if a.toList.take 1 = ['-'] then
      .error ⟨[.stderr "Unknown option: %s\n"], 1⟩
    else if o.sladdress = none then argLoop rest { o with sladdress := some a }
    else if o.dladdress = none then argLoop rest { o with dladdress := some a }
    else .error ⟨[.stderr "Unknown option: %s\n"], 1⟩

/-- Modelled from the spec: `sl_strparse (string, delim, &list)` of libslink
for a one-character delimiter: the list of the parts of `string` between
the separators ("begin[:end]"), empty parts included; the C function
returns the number of parts. -/
def sl_strparse (delim : Char) : Bytes → List Bytes
  | [] => [[]]
  | c :: cs =>
    if c = delim then [] :: sl_strparse delim cs
    else
      match sl_strparse delim cs with
      | [] => [[c]]
      | x :: xs => (c :: x) :: xs

/-- The block "Split the time window argument" of `parameter_proc`
(lines 355-398): the log line of the failure, or `begin_time` and
`end_time`. -/
def timeWindow (timewin : String) : Except Event (String × Option String) :=
  if ':' ∉ timewin.toList then
    .error (.sl_log 2 "time window not in begin:[end] format\n")
  else
    let timelist := sl_strparse ':' timewin.toList
    if timelist.length > 2 then
      .error (.sl_log 2 "time window not in begin:[end] format\n")
    else
      match timelist with
      | [] => .error (.sl_log 2 "time window must specify a begin time\n")
      | b :: tl =>
        if b.length = 0 then
          .error (.sl_log 2 "time window must specify a begin time\n")
        else
          match tl with
          | [] => .ok (String.mk b, none)
          | e :: tl1 =>
            if tl1 ≠ [] then .error (.sl_log 2 "malformed time window specification\n")
            else .ok (String.mk b, some (String.mk e))

/-- The C library's `isspace` in the "C" locale. -/
def isspace (c : Char) : Bool :=
  c = ' ' || c = '\t' || c = '\n' || c = '\x0b' || c = '\x0c' || c = '\r'

/-- Value of a character as a digit in bases up to 36. -/
def digitValue (c : Char) : Nat :=
  if '0' ≤ c ∧ c ≤ '9' then c.toNat - '0'.toNat
  else if 'a' ≤ c ∧ c ≤ 'z' then c.toNat - 'a'.toNat + 10
  else if 'A' ≤ c ∧ c ≤ 'Z' then c.toNat - 'A'.toNat + 10
  else 36

/-- Largest `unsigned long` where it has 64 bits. -/
def ULONG_MAX : Nat := 18446744073709551615

/-- The C library's `strtoul (nptr, &tail, 0)` for a 64-bit `unsigned long`
(ISO C 7.22.1.4): white space, an optional sign, an optional base prefix
(`0x` hexadecimal, `0` octal, else decimal), then digits.  Returns the
value and the tail; without digits the value is 0 and the tail is `nptr`;
a value that does not fit gives `ULONG_MAX`; a minus sign negates in
`unsigned long`. -/
def strtoul (nptr : Bytes) : Nat × Bytes :=
  let s1 := nptr.dropWhile isspace
  let (neg, s2) := match s1 with
    | '-' :: r => (true, r)
    | '+' :: r => (false, r)
    | _ => (false, s1)
  let (base, s3) := match s2 with
    | '0' :: x :: d :: r =>
      if (x = 'x' ∨ x = 'X') ∧ digitValue d < 16 then (16, d :: r) else (8, s2)
    | '0' :: _ => (8, s2)
    | _ => (10, s2)
  let digits := s3.takeWhile (fun c => digitValue c < base)
  if digits = [] then (0, nptr)
  else
    let v := digits.foldl (fun acc c => acc * base + digitValue c) 0
    let tail := s3.drop digits.length
    if v > ULONG_MAX then (ULONG_MAX, tail)
    else if neg then ((ULONG_MAX + 1 - v) % (ULONG_MAX + 1), tail)
    else (v, tail)

/-- The interval part of the block "Attempt to recover sequence numbers
from state file" of `parameter_proc` (lines 415-428): the state file name
cut at its first ':', `stateint`, and whether "state saving interval
specified incorrectly" is reported.  Without a ':' the name and `stateint`
stay as they are. -/
def stateInterval (statefile : String) (stateint : Int) : String × Int × Bool :=
  if ':' ∈ statefile.toList then
    let path := statefile.toList.takeWhile (· ≠ ':')
    let tptr := (statefile.toList.dropWhile (· ≠ ':')).drop 1
    let (value, tail) := strtoul tptr
    let stateint1 := toInt32 (value % 4294967296)
    (String.mk path, stateint1, decide (tail ≠ [] ∨ stateint1 < 0 ∨ stateint1 > 1000000000))
  else (statefile, stateint, false)

/-- How `parameter_proc` ends: with a call of `exit`, or by returning `rv`
with the variables it has set. -/
inductive ProcEnd where
  | exited (code : Int)
  | returned (rv : Int) (cfg : Config)
  deriving DecidableEq, Repr

/-- A run of `parameter_proc`. -/
structure ProcRun where
  events : List Event
  result : ProcEnd
  deriving DecidableEq, Repr

/-- The block "Load the stream list from a file if specified" of
`parameter_proc` (lines 351-353). -/
def streamlistEvents (o : Opts) : List Event :=
  match o.streamfile with
  | some f => [.sl_read_streamlist f]
  | none => []

/-- The time window block of `parameter_proc` applied to the value of
`-tw`, if there is one: the log line of the failure, or the values stored
in `slconn->begin_time` and `slconn->end_time`. -/
def timeWindowOf (o : Opts) : Except Event (Option String × Option String) :=
  match o.timewin with
  | some t =>
    match timeWindow t with
    | .ok (b, e) => .ok (some b, e)
    | .error ev => .error ev
  | none => .ok (none, none)

/-- The block "Parse the 'multiselect' string following '-S'" of
`parameter_proc` (lines 400-409): the library calls, and whether
`sl_parse_streamlist` returned -1. -/
def selectStreams (env : Env) (o : Opts) : List Event × Bool :=
  match o.multiselect with
  | some m => ([.sl_parse_streamlist m], decide (env.sl_parse_streamlist m = -1))
  | none => (if o.streamfile = none then [.sl_setuniparams] else [], false)

/-- The call of `sl_recoverstate` of `parameter_proc` (lines 430-433). -/
def recoverState (env : Env) (path : String) : List Event :=
  if env.sl_recoverstate path < 0 then
    [.sl_recoverstate path, .sl_log 2 "state recovery failed\n"]
  else [.sl_recoverstate path]

/-- The part of `parameter_proc` after the servers are known and the
descriptors are allocated (lines 332-436). -/
def configure (env : Env) (argcount : Nat) (o : Opts) : ProcRun :=
  let cfg : Config :=
    { verbose := o.verbose, dialup := o.dialup, netcode := o.netcode, statefile := o.statefile }
  -- Report the program version
  let ev0 : List Event := [.sl_log 1 "%s version: %s\n"]
  -- If errors then report the usage message and quit
  if argcount ≤ 1 then ⟨ev0 ++ [.usage], .exited 1⟩
  else
    -- Load the stream list from a file if specified
    let ev1 : List Event := ev0 ++ streamlistEvents o
    -- Split the time window argument
    match timeWindowOf o with
    | .error e => ⟨ev1 ++ [e], .returned (-1) cfg⟩
    | .ok (b, e) =>
      let cfg1 := { cfg with begin_time := b, end_time := e }
      -- Parse the 'multiselect' string following '-S'
      let ms := selectStreams env o
      if ms.2 then ⟨ev1 ++ ms.1, .returned (-1) cfg1⟩
      else
        -- Attempt to recover sequence numbers from state file
        match o.statefile with
        | none => ⟨ev1 ++ ms.1, .returned 0 cfg1⟩
        | some sf =>
          let si := stateInterval sf cfg1.stateint
          let cfg2 := { cfg1 with statefile := some si.1, stateint := si.2.1 }
          if si.2.2 then
            ⟨ev1 ++ ms.1 ++ [.sl_log 2 "state saving interval specified incorrectly\n"],
             .returned (-1) cfg2⟩
          else ⟨ev1 ++ ms.1 ++ recoverState env si.1, .returned 0 cfg2⟩

/-- The three lines that `parameter_proc` prints after "No SeedLink server
specified" and after "No DataLink server specified". -/
def usageHint : List Event :=
  [.stderr "%s version %s\n\n", .stderr "Usage: %s [options] slhost dlhost\n\n",
   .stderr "Try '-h' for detailed help\n"]

/-- The function `parameter_proc (argcount, argvec)` of slink2dali.c. -/
def parameter_proc (env : Env) (argv : List String) : ProcRun :=
  -- Process all command line arguments
  match argLoop argv.tail {} with
  | .error x => ⟨x.events, .exited x.code⟩
  | .ok o =>
    -- Make sure a SeedLink server was specified
    if o.sladdress = none then
      ⟨.stderr "No SeedLink server specified\n\n" :: usageHint, .exited 1⟩
    -- Make sure a DataLink server was specified
    else if o.dladdress = none then
      ⟨.stderr "No DataLink server specified\n\n" :: usageHint, .exited 1⟩
    -- Allocate and initialize SeedLink connection description
    else if !env.sl_newslcd_ok then
      ⟨[.stderr "Cannot allocation SeedLink descriptor\n"], .exited 1⟩
    -- Allocate and initialize DataLink connection description
    else if !env.dl_newdlcp_ok then
      ⟨[.stderr "Cannot allocation DataLink descriptor\n"], .exited 1⟩
    else configure env argv.length o

/-- A run of `main`: the events and the exit status of the process
(`none` when a loop did not come to its end within the fuel). -/
structure MainRun where
  events : List Event
  status : Option Int
  deriving DecidableEq, Repr

/-- The part of `main` after the first `dl_connect` has succeeded: the
collection loop and the shutdown (lines 89-152). -/
def runFrom (L : LibMSeed) (cfg : Config) (env : Env) (fuel : Nat)
    (packets : List SLpacket) (st : State) : MainRun :=
  -- Loop with the connection manager
  let r := collectLoop L cfg env fuel packets st
  if r.finished then
    -- Shut down the connection to SeedLink server
    let ev1 : List Event := if env.sl_link_at_exit then [.sl_disconnect] else []
    -- Shut down the connection to DataLink server
    let ev2 : List Event := if r.state.dllink then [.dl_disconnect] else []
    -- Save state file if specified
    let ev3 : List Event := match cfg.statefile with
      | some f => [.sl_savestate f]
      | none => []
    ⟨r.events ++ ev1 ++ ev2 ++ ev3, some 0⟩
  else ⟨r.events, none⟩

/-- The function `main (argc, argv)` of slink2dali.c, with `packets` the packets that
`sl_collect` hands out before it returns 0. -/
def main (L : LibMSeed) (env : Env) (fuel : Nat) (argv : List String)
    (packets : List SLpacket) : MainRun :=
  -- Process specified parameters
  let p := parameter_proc env argv
  match p.result with
  | .exited code => ⟨p.events, some code⟩
  | .returned rv cfg =>
    if rv < 0 then
      ⟨p.events ++ [.stderr "Argument processing failed\n",
                    .stderr "Try '-h' for detailed help\n"], some (-1)⟩
    -- Connect to DataLink server
    else if !env.dl_connect_ok 0 then
      ⟨p.events ++ [.dl_connect false, .sl_log 2 "Error connecting to DataLink server\n"],
       some (-1)⟩
    else
      let r := runFrom L cfg env fuel packets { nconnect := 1, dllink := true }
      ⟨p.events ++ .dl_connect true :: r.events, r.status⟩

/-! ## Observers on the events -/

/-- A call of `dl_write`. -/
def Event.isWrite : Event → Bool
  | .dl_write .. => true
  | _ => false

/-- A call of `dl_connect`. -/
def Event.isConnect : Event → Bool
  | .dl_connect _ => true
  | _ => false

/-- A call of `sleep`. -/
def Event.isSleep : Event → Bool
  | .sleep _ => true
  | _ => false

/-- A call of `dl_disconnect`. -/
def Event.isDisconnect : Event → Bool
  | .dl_disconnect => true
  | _ => false

/-- A call of `msr_unpack`, the first call that every `sendrecord` makes. -/
def Event.isUnpack : Event → Bool
  | .msr_unpack .. => true
  | _ => false

/-- A call of `sl_collect`. -/
def Event.isCollect : Event → Bool
  | .sl_collect _ => true
  | _ => false

/-- A call of `sl_savestate`. -/
def Event.isSavestate : Event → Bool
  | .sl_savestate _ => true
  | _ => false

/-- An event that is neither a connection attempt to the sink, nor a fetch
from the source, nor a sleep, nor a write. -/
def Event.isQuiet (e : Event) : Bool :=
  !(e.isConnect || e.isCollect || e.isSleep || e.isWrite)

/-- The record bytes of the calls of `dl_write` that succeeded, in order. -/
def delivered : List Event → List Bytes
  | [] => []
  | .dl_write record _ _ _ _ _ true :: es => record :: delivered es
  | _ :: es => delivered es

/-- The packet is of one of the types that `main` passes to `sendrecord`. -/
def SLpacket.dataBearing (p : SLpacket) : Bool :=
  decide (SLDATA ≤ p.ptype ∧ p.ptype < SLNUM)

/-- The return value of `parameter_proc`, if it returns. -/
def ProcRun.rv (p : ProcRun) : Option Int :=
  match p.result with
  | .exited _ => none
  | .returned rv _ => some rv

/-- The type tags of the table `type[]` of `main`. -/
inductive PacketTag where
  | Data | Detection | Calibration | Timing | Message | General
  | Request | Info | InfoTerminated | KeepAlive
  deriving DecidableEq, Repr

/-- The entry of `type[]` for a tag. -/
def PacketTag.name : PacketTag → String
  | .Data => "Data" | .Detection => "Detection" | .Calibration => "Calibration"
  | .Timing => "Timing" | .Message => "Message" | .General => "General"
  | .Request => "Request" | .Info => "Info" | .InfoTerminated => "Info (terminated)"
  | .KeepAlive => "KeepAlive"

/-- The packet type value of a tag: its index in `type[]`. -/
def PacketTag.code : PacketTag → Int
  | .Data => 0 | .Detection => 1 | .Calibration => 2 | .Timing => 3
  | .Message => 4 | .General => 5 | .Request => 6 | .Info => 7
  | .InfoTerminated => 8 | .KeepAlive => 9

/-- The connect and sleep calls expected from `k` passes of the retry loop
when `n` calls of `dl_connect` have been made before. -/
def backoffTrace (env : Env) : Nat → Nat → List Event
  | _, 0 => []
  | n, k + 1 =>
    (if env.dl_connect_ok n then [Event.dl_connect true]
     else [Event.dl_connect false, Event.sleep 10]) ++ backoffTrace env (n + 1) k

/-- The stream identity that `sendrecord` derives from parsed bytes. -/
def streamIdOf (L : LibMSeed) (r : Bytes) : Bytes :=
  match msr_unpack L r with
  | .ok msr => msr_srcname msr ++ "/MSEED".toList
  | .error _ => []

/-- The `dl_write` call that `sendrecord` makes for bytes `r` that parse. -/
def writeCall (L : LibMSeed) (cfg : Config) (r : Bytes) (ok : Bool) : Event :=
  .dl_write r SLRECSIZE (streamIdOf L r) (L.starttime r) (L.endtime r) cfg.writeack ok

/-! ## Sample values -/

/-- A Mini-SEED header access with the layout of the SEED fixed header
(sequence number in bytes 0-5, quality indicator 6, reserved 7, station
8-12, location 13-14, channel 15-17, network 18-19) that accepts a record
when its quality indicator is one of D, R, Q, M and answers -2 otherwise. -/
def sampleLib : LibMSeed :=
  { network_offset := 18
    padchar := ' '
    unpack_status := fun r =>
      if r.getD 6 ' ' = 'D' ∨ r.getD 6 ' ' = 'R' ∨ r.getD 6 ' ' = 'Q' ∨ r.getD 6 ' ' = 'M'
      then 0 else -2
    station := fun r => (r.drop 8).take 5
    location := fun r => (r.drop 13).take 2
    channel := fun r => (r.drop 15).take 3
    starttime := fun _ => 0
    endtime := fun _ => 1 }

/-- An environment in which every library call succeeds and termination is
never requested. -/
def calmEnv : Env :=
  { dl_write_ok := fun _ => true
    dl_write_keeps_link := fun _ => true
    dl_connect_ok := fun _ => true
    terminate := fun _ => false
    sl_link_at_exit := true
    sl_newslcd_ok := true
    dl_newdlcp_ok := true
    sl_parse_streamlist := fun _ => 0
    sl_recoverstate := fun _ => 0 }

/-- As `calmEnv`, but the first two calls of `dl_write` fail and so does the
second call of `dl_connect`. -/
def flakyEnv : Env :=
  { calmEnv with
    dl_write_ok := fun n => decide (2 ≤ n)
    dl_connect_ok := fun n => decide (n ≠ 1) }

/-- As `calmEnv`, but `dl_connect` fails twice before it succeeds. -/
def lateSinkEnv : Env :=
  { calmEnv with dl_connect_ok := fun n => decide (2 ≤ n) }

/-- A record of `SLRECSIZE` bytes of station ANMO, channel BHZ, with the
network code `net`. -/
def sampleRecord (net : String) : Bytes :=
  "000001D ANMO 00BHZ".toList ++ net.toList ++ List.replicate 492 (Char.ofNat 0)

/-- A record of `SLRECSIZE` zero bytes; `sampleLib` does not accept it. -/
def zeroRecord : Bytes := List.replicate 512 (Char.ofNat 0)

/-- The state of `main` when it enters the collection loop. -/
def loopStart : State := { nconnect := 1, dllink := true }

/-! ## Lemmas on `sendrecord` and the retry loop -/

theorem ms_strncpopen_two (pad : Char) (src : Bytes) :
    ms_strncpopen pad src 2 = [src.getD 0 pad, src.getD 1 pad] := by
  simp [ms_strncpopen, List.range_succ]

theorem poke_two (r : Bytes) (off : Nat) (a b : Char) :
    poke r off [a, b] = (r.set off a).set (off + 1) b := rfl

theorem setset_idem (r : Bytes) (off : Nat) (a b : Char) :
    (((r.set off a).set (off + 1) b).set off a).set (off + 1) b
      = (r.set off a).set (off + 1) b := by
  apply List.ext_getElem?
  intro i
  simp only [List.getElem?_set, List.length_set]
  split_ifs <;> simp_all

theorem translateNetcode_idem (L : LibMSeed) (cfg : Config) (r : Bytes) :
    translateNetcode L cfg (translateNetcode L cfg r) = translateNetcode L cfg r := by
  unfold translateNetcode
  cases cfg.netcode with
  | none => rfl
  | some nc => simp only [ms_strncpopen_two, poke_two, setset_idem]

theorem sendrecord_parsed (L : LibMSeed) (cfg : Config) (env : Env) (record : Bytes)
    (st : State) (h : L.unpack_status (translateNetcode L cfg record) = MS_NOERROR) :
    sendrecord L cfg env record SLRECSIZE st =
      { rv := if env.dl_write_ok st.nwrite then 0 else -1
        record := translateNetcode L cfg record
        events := [.msr_unpack (translateNetcode L cfg record) MS_NOERROR,
                   writeCall L cfg (translateNetcode L cfg record) (env.dl_write_ok st.nwrite)]
        state := { st with nwrite := st.nwrite + 1
                           dllink := st.dllink &&
                             (env.dl_write_ok st.nwrite || env.dl_write_keeps_link st.nwrite) } } := by
  simp [sendrecord, msr_unpack, h, writeCall, streamIdOf, msr_endtime]

theorem sendrecord_unparsed (L : LibMSeed) (cfg : Config) (env : Env) (record : Bytes)
    (st : State) (h : L.unpack_status (translateNetcode L cfg record) ≠ MS_NOERROR) :
    sendrecord L cfg env record SLRECSIZE st =
      { rv := -1
        record := translateNetcode L cfg record
        events := [.msr_unpack (translateNetcode L cfg record)
                     (L.unpack_status (translateNetcode L cfg record)),
                   .sl_log 2 "Error unpacking %s: %s"]
        state := st } := by
  simp [sendrecord, msr_unpack, h]

theorem reconnect_state (cfg : Config) (env : Env) (st : State) :
    (reconnect cfg env st).2 =
      { st with nconnect := st.nconnect + 1, dllink := env.dl_connect_ok st.nconnect } := rfl

theorem reconnect_writes (cfg : Config) (env : Env) (st : State) :
    (reconnect cfg env st).1.filter Event.isWrite = [] := by
  simp only [reconnect]
  split_ifs <;> simp [Event.isWrite]

theorem reconnect_backoff (cfg : Config) (env : Env) (st : State) :
    (reconnect cfg env st).1.filter (fun e => e.isConnect || e.isSleep) =
      (if env.dl_connect_ok st.nconnect then [Event.dl_connect true]
       else [Event.dl_connect false, Event.sleep 10]) := by
  simp only [reconnect]
  split_ifs <;> simp [Event.isConnect, Event.isSleep]

theorem reconnect_connects (cfg : Config) (env : Env) (st : State) :
    ((reconnect cfg env st).1.filter Event.isConnect).length = 1 := by
  simp only [reconnect]
  split_ifs <;> simp [Event.isConnect]

theorem retryLoop_succ_ok (L : LibMSeed) (cfg : Config) (env : Env) (fuel : Nat)
    (record : Bytes) (st : State)
    (hrv : (sendrecord L cfg env record SLRECSIZE st).rv = 0) :
    retryLoop L cfg env (fuel + 1) record st =
      { events := (sendrecord L cfg env record SLRECSIZE st).events
        state := (sendrecord L cfg env record SLRECSIZE st).state
        finished := true } := by
  simp [retryLoop, hrv]

theorem retryLoop_succ_fail (L : LibMSeed) (cfg : Config) (env : Env) (fuel : Nat)
    (record : Bytes) (st : State)
    (hrv : (sendrecord L cfg env record SLRECSIZE st).rv ≠ 0)
    (ht : ∀ n, env.terminate n = false) :
    retryLoop L cfg env (fuel + 1) record st =
      { events := (sendrecord L cfg env record SLRECSIZE st).events
          ++ (reconnect cfg env (sendrecord L cfg env record SLRECSIZE st).state).1
          ++ (retryLoop L cfg env fuel (sendrecord L cfg env record SLRECSIZE st).record
                { (reconnect cfg env (sendrecord L cfg env record SLRECSIZE st).state).2 with
                  nterm := (reconnect cfg env (sendrecord L cfg env record SLRECSIZE st).state).2.nterm + 1 }).events
        state := (retryLoop L cfg env fuel (sendrecord L cfg env record SLRECSIZE st).record
                { (reconnect cfg env (sendrecord L cfg env record SLRECSIZE st).state).2 with
                  nterm := (reconnect cfg env (sendrecord L cfg env record SLRECSIZE st).state).2.nterm + 1 }).state
        finished := (retryLoop L cfg env fuel (sendrecord L cfg env record SLRECSIZE st).record
                { (reconnect cfg env (sendrecord L cfg env record SLRECSIZE st).state).2 with
                  nterm := (reconnect cfg env (sendrecord L cfg env record SLRECSIZE st).state).2.nterm + 1 }).finished } := by
  simp [retryLoop, hrv, ht]

theorem retryLoop_fail_then_ok (L : LibMSeed) (cfg : Config) (env : Env)
    (hterm : ∀ n, env.terminate n = false) (extra : Nat) :
    ∀ (K : Nat) (record : Bytes) (st : State),
      L.unpack_status (translateNetcode L cfg record) = MS_NOERROR →
      (∀ i, i < K → env.dl_write_ok (st.nwrite + i) = false) →
      env.dl_write_ok (st.nwrite + K) = true →
      (retryLoop L cfg env (K + 1 + extra) record st).finished = true ∧
      (retryLoop L cfg env (K + 1 + extra) record st).state.nwrite = st.nwrite + K + 1 ∧
      (retryLoop L cfg env (K + 1 + extra) record st).state.nconnect = st.nconnect + K ∧
      (retryLoop L cfg env (K + 1 + extra) record st).state.packetcnt = st.packetcnt ∧
      (retryLoop L cfg env (K + 1 + extra) record st).events.filter Event.isWrite =
        List.replicate K (writeCall L cfg (translateNetcode L cfg record) false)
          ++ [writeCall L cfg (translateNetcode L cfg record) true] ∧
      ((retryLoop L cfg env (K + 1 + extra) record st).events.filter Event.isConnect).length = K ∧
      (retryLoop L cfg env (K + 1 + extra) record st).events.filter
          (fun e => e.isConnect || e.isSleep) = backoffTrace env st.nconnect K := by
  intro K
  induction K with
  | zero =>
    intro record st hp _ hok
    have hok' : env.dl_write_ok st.nwrite = true := by simpa using hok
    have hs := sendrecord_parsed L cfg env record st hp
    have e : 0 + 1 + extra = extra + 1 := by omega
    rw [e]
    have hrv : (sendrecord L cfg env record SLRECSIZE st).rv = 0 := by simp [hs, hok']
    rw [retryLoop_succ_ok L cfg env _ record st hrv]
    simp [hs, hok', writeCall, Event.isWrite, Event.isConnect, Event.isSleep, backoffTrace]
  | succ K ih =>
    intro record st hp hfail hok
    have h0 : env.dl_write_ok st.nwrite = false := by simpa using hfail 0 (by omega)
    have hs := sendrecord_parsed L cfg env record st hp
    have e : K + 1 + 1 + extra = (K + 1 + extra) + 1 := by omega
    rw [e]
    have hp' : L.unpack_status (translateNetcode L cfg (translateNetcode L cfg record))
        = MS_NOERROR := by rw [translateNetcode_idem]; exact hp
    obtain ⟨i1, i2, i3, i4, i5, i6, i7⟩ := ih (translateNetcode L cfg record)
      { nwrite := st.nwrite + 1, nconnect := st.nconnect + 1, nterm := st.nterm + 1,
        dllink := env.dl_connect_ok st.nconnect, packetcnt := st.packetcnt } hp'
      (by intro i hi; have := hfail (i + 1) (by omega); simpa [Nat.add_assoc, Nat.add_comm 1 i] using this)
      (by have := hok; simpa [Nat.add_assoc, Nat.add_comm 1 K] using this)
    simp only [translateNetcode_idem] at i5
    have hrv : (sendrecord L cfg env record SLRECSIZE st).rv ≠ 0 := by simp [hs, h0]
    rw [retryLoop_succ_fail L cfg env _ record st hrv hterm]
    simp only [hs, h0, reconnect_state]
    simp only [List.filter_append, reconnect_writes, reconnect_backoff, List.length_append,
      reconnect_connects]
    refine ⟨?_, ?_, ?_, ?_, ?_, ?_, ?_⟩
    · simpa using i1
    · simp at i2 ⊢; omega
    · simp at i3 ⊢; omega
    · simpa using i4
    · simp [Event.isWrite, writeCall, List.replicate_succ] at i5 ⊢
      exact i5
    · simp [Event.isConnect, writeCall] at i6 ⊢
      omega
    · simp [Event.isConnect, Event.isSleep, writeCall, backoffTrace] at i7 ⊢
      exact i7

/-! ## Lemmas on the collection loop -/

theorem delivered_append (a b : List Event) :
    delivered (a ++ b) = delivered a ++ delivered b := by
  induction a with
  | nil => rfl
  | cons e es ih =>
    cases e with
    | dl_write r n s t1 t2 k ok => cases ok <;> simp [delivered, ih]
    | _ => simp [delivered, ih]

theorem delivered_of_no_write (l : List Event) (h : ∀ e ∈ l, e.isWrite = false) :
    delivered l = [] := by
  induction l with
  | nil => rfl
  | cons e es ih =>
    have he := h e (by simp)
    have hes := ih (fun x hx => h x (by simp [hx]))
    cases e <;> simp_all [delivered, Event.isWrite]

theorem delivered_filter (l : List Event) :
    delivered (l.filter Event.isWrite) = delivered l := by
  induction l with
  | nil => rfl
  | cons e es ih =>
    cases e with
    | dl_write r n s t1 t2 k ok => cases ok <;> simp [delivered, Event.isWrite, ih]
    | _ => simp [delivered, Event.isWrite, ih]

theorem delivered_replicate_failed (L : LibMSeed) (cfg : Config) (r : Bytes) (K : Nat) :
    delivered (List.replicate K (writeCall L cfg r false) ++ [writeCall L cfg r true]) = [r] := by
  induction K with
  | zero => simp [writeCall, delivered]
  | succ K ih => simpa [List.replicate_succ, writeCall, delivered] using ih

theorem receivedLog_no_write (cfg : Config) (p : SLpacket) :
    ∀ e ∈ receivedLog cfg p, e.isWrite = false ∧ e.isUnpack = false ∧ e.isConnect = false
      ∧ e.isSavestate = false := by
  intro e he
  simp only [receivedLog] at he
  split_ifs at he <;> simp_all [Event.isWrite, Event.isUnpack, Event.isConnect, Event.isSavestate]

theorem checkpoint_no_write (cfg : Config) (st : State) :
    ∀ e ∈ (checkpoint cfg st).1, e.isWrite = false ∧ e.isUnpack = false ∧ e.isConnect = false := by
  intro e he
  simp only [checkpoint] at he
  split at he
  · split_ifs at he <;> simp_all [Event.isWrite, Event.isUnpack, Event.isConnect]
  · simp at he

theorem exists_first_ok (f : Nat → Bool) (n : Nat) (h : ∃ m, n ≤ m ∧ f m = true) :
    ∃ K, (∀ i, i < K → f (n + i) = false) ∧ f (n + K) = true := by
  have h' : ∃ K, f (n + K) = true := by
    obtain ⟨m, hm, hf⟩ := h
    exact ⟨m - n, by rw [Nat.add_sub_cancel' hm]; exact hf⟩
  refine ⟨Nat.find h', ?_, Nat.find_spec h'⟩
  intro i hi
  have := Nat.find_min h' hi
  simpa using this

theorem dataBearing_iff (p : SLpacket) :
    p.dataBearing = true ↔ (SLDATA ≤ p.ptype ∧ p.ptype < SLNUM) := by
  simp [SLpacket.dataBearing]

theorem loopBody_not_data (L : LibMSeed) (cfg : Config) (env : Env) (fuel : Nat)
    (p : SLpacket) (st : State) (h : p.dataBearing = false) :
    loopBody L cfg env fuel p st =
      { events := Event.sl_collect (some p.seqnum) :: receivedLog cfg p ++ (checkpoint cfg st).1
        state := (checkpoint cfg st).2
        finished := true } := by
  have h' : ¬ (SLDATA ≤ p.ptype ∧ p.ptype < SLNUM) := by
    rw [← dataBearing_iff]; simp [h]
  simp [loopBody, h']

theorem loopBody_data (L : LibMSeed) (cfg : Config) (env : Env) (fuel : Nat)
    (p : SLpacket) (st : State) (h : p.dataBearing = true)
    (hf : (retryLoop L cfg env fuel p.msrecord st).finished = true) :
    loopBody L cfg env fuel p st =
      { events := Event.sl_collect (some p.seqnum) :: receivedLog cfg p
          ++ (retryLoop L cfg env fuel p.msrecord st).events
          ++ (checkpoint cfg { (retryLoop L cfg env fuel p.msrecord st).state with
                packetcnt := (retryLoop L cfg env fuel p.msrecord st).state.packetcnt + 1 }).1
        state := (checkpoint cfg { (retryLoop L cfg env fuel p.msrecord st).state with
                packetcnt := (retryLoop L cfg env fuel p.msrecord st).state.packetcnt + 1 }).2
        finished := true } := by
  have h' : SLDATA ≤ p.ptype ∧ p.ptype < SLNUM := (dataBearing_iff p).1 h
  simp [loopBody, h', hf]

theorem retryLoop_mono (L : LibMSeed) (cfg : Config) (env : Env) (extra : Nat) :
    ∀ (fuel : Nat) (record : Bytes) (st : State),
      (retryLoop L cfg env fuel record st).finished = true →
      retryLoop L cfg env (fuel + extra) record st = retryLoop L cfg env fuel record st := by
  intro fuel
  induction fuel with
  | zero => intro record st h; simp [retryLoop] at h
  | succ fuel ih =>
    intro record st h
    have e : fuel + 1 + extra = (fuel + extra) + 1 := by omega
    rw [e]
    simp only [retryLoop] at h ⊢
    split_ifs at h ⊢ with h1 h2
    · rfl
    · rfl
    · simp only at h
      rw [ih _ _ h]

theorem loopBody_mono (L : LibMSeed) (cfg : Config) (env : Env) (fuel extra : Nat)
    (p : SLpacket) (st : State) (h : (loopBody L cfg env fuel p st).finished = true) :
    loopBody L cfg env (fuel + extra) p st = loopBody L cfg env fuel p st := by
  by_cases h1 : SLDATA ≤ p.ptype ∧ p.ptype < SLNUM
  · by_cases h2 : (retryLoop L cfg env fuel p.msrecord st).finished = true
    · simp only [loopBody, h1, retryLoop_mono L cfg env extra fuel _ _ h2]
    · simp [loopBody, h1, h2] at h
  · simp only [loopBody, h1, if_false]

theorem loopBody_delivers (L : LibMSeed) (cfg : Config) (env : Env)
    (hterm : ∀ n, env.terminate n = false)
    (hwrite : ∀ n, ∃ m, n ≤ m ∧ env.dl_write_ok m = true)
    (p : SLpacket) (st : State)
    (hparse : p.dataBearing = true →
      L.unpack_status (translateNetcode L cfg p.msrecord) = MS_NOERROR) :
    ∃ fuel0, ∀ fuel, fuel0 ≤ fuel →
      (loopBody L cfg env fuel p st).finished = true ∧
      delivered (loopBody L cfg env fuel p st).events =
        ([p].filter SLpacket.dataBearing).map (fun q => translateNetcode L cfg q.msrecord) := by
  cases hd : p.dataBearing with
  | false =>
    refine ⟨0, fun fuel _ => ?_⟩
    rw [loopBody_not_data L cfg env fuel p st hd]
    refine ⟨rfl, ?_⟩
    simp only [List.filter, hd, List.map_nil]
    apply delivered_of_no_write
    intro e he
    simp only [List.mem_cons, List.mem_append] at he
    rcases he with (he | he) | he
    · subst he; rfl
    · exact (receivedLog_no_write cfg p e he).1
    · exact (checkpoint_no_write cfg st e he).1
  | true =>
    obtain ⟨K, hfail, hok⟩ := exists_first_ok env.dl_write_ok st.nwrite (hwrite st.nwrite)
    refine ⟨K + 1, fun fuel hfuel => ?_⟩
    obtain ⟨extra, rfl⟩ : ∃ extra, fuel = K + 1 + extra := ⟨fuel - (K + 1), by omega⟩
    obtain ⟨h1, -, -, -, h5, -, -⟩ :=
      retryLoop_fail_then_ok L cfg env hterm extra K p.msrecord st (hparse hd) hfail hok
    rw [loopBody_data L cfg env _ p st hd h1]
    refine ⟨rfl, ?_⟩
    simp only [List.filter, hd, List.map_cons, List.map_nil]
    have hc : delivered (Event.sl_collect (some p.seqnum) :: receivedLog cfg p) = [] := by
      apply delivered_of_no_write
      intro e he
      simp only [List.mem_cons] at he
      rcases he with he | he
      · subst he; rfl
      · exact (receivedLog_no_write cfg p e he).1
    have hk := delivered_of_no_write _ (fun e he => (checkpoint_no_write cfg
      { (retryLoop L cfg env (K + 1 + extra) p.msrecord st).state with
        packetcnt := (retryLoop L cfg env (K + 1 + extra) p.msrecord st).state.packetcnt + 1 }
      e he).1)
    rw [delivered_append, delivered_append, hc, hk, ← delivered_filter, h5,
      delivered_replicate_failed]
    rfl

theorem collectLoop_delivers (L : LibMSeed) (cfg : Config) (env : Env)
    (hterm : ∀ n, env.terminate n = false)
    (hwrite : ∀ n, ∃ m, n ≤ m ∧ env.dl_write_ok m = true) :
    ∀ (packets : List SLpacket) (st : State),
      (∀ p ∈ packets, p.dataBearing = true →
        L.unpack_status (translateNetcode L cfg p.msrecord) = MS_NOERROR) →
      ∃ fuel0, ∀ fuel, fuel0 ≤ fuel →
        (collectLoop L cfg env fuel packets st).finished = true ∧
        delivered (collectLoop L cfg env fuel packets st).events =
          (packets.filter SLpacket.dataBearing).map (fun q => translateNetcode L cfg q.msrecord) := by
  intro packets
  induction packets with
  | nil =>
    intro st _
    exact ⟨0, fun fuel _ => ⟨rfl, rfl⟩⟩
  | cons p ps ih =>
    intro st hparse
    obtain ⟨f1, h1⟩ := loopBody_delivers L cfg env hterm hwrite p st
      (hparse p (by simp))
    obtain ⟨f2, h2⟩ := ih (loopBody L cfg env f1 p st).state
      (fun q hq => hparse q (by simp [hq]))
    refine ⟨max f1 f2, fun fuel hfuel => ?_⟩
    obtain ⟨extra, rfl⟩ : ∃ extra, fuel = f1 + extra := ⟨fuel - f1, by omega⟩
    have hb := h1 f1 (le_refl _)
    have hm := loopBody_mono L cfg env f1 extra p st hb.1
    have h2' := h2 (f1 + extra) (by omega)
    simp only [collectLoop, hm, hb.1, if_true]
    refine ⟨h2'.1, ?_⟩
    rw [delivered_append, hb.2, h2'.2]
    cases hd : p.dataBearing <;> simp [List.filter, hd]


theorem retryLoop_unparsed (L : LibMSeed) (cfg : Config) (env : Env)
    (hterm : ∀ n, env.terminate n = false) :
    ∀ (fuel : Nat) (record : Bytes) (st : State),
      L.unpack_status (translateNetcode L cfg record) ≠ MS_NOERROR →
      (retryLoop L cfg env fuel record st).finished = false ∧
      (retryLoop L cfg env fuel record st).events.filter Event.isWrite = [] ∧
      ((retryLoop L cfg env fuel record st).events.filter Event.isConnect).length = fuel ∧
      (retryLoop L cfg env fuel record st).events.filter Event.isCollect = [] := by
  intro fuel
  induction fuel with
  | zero => intro record st _; simp [retryLoop]
  | succ fuel ih =>
    intro record st hp
    have hs := sendrecord_unparsed L cfg env record st hp
    have hrv : (sendrecord L cfg env record SLRECSIZE st).rv ≠ 0 := by simp [hs]
    have hp' : L.unpack_status (translateNetcode L cfg (translateNetcode L cfg record))
        ≠ MS_NOERROR := by rw [translateNetcode_idem]; exact hp
    rw [retryLoop_succ_fail L cfg env _ record st hrv hterm]
    simp only [hs]
    obtain ⟨i1, i2, i3, i4⟩ := ih (translateNetcode L cfg record)
      { (reconnect cfg env st).2 with nterm := (reconnect cfg env st).2.nterm + 1 } hp'
    refine ⟨i1, ?_, ?_, ?_⟩
    · simp only [List.filter_append, reconnect_writes, i2]
      simp [Event.isWrite]
    · simp only [List.filter_append, List.length_append, reconnect_connects, i3]
      simp [Event.isConnect]; omega
    · simp only [List.filter_append, i4]
      simp only [reconnect]
      split_ifs <;> simp [Event.isCollect]

/-- C1: when termination is never requested, every data-bearing record of
the packets handed out by `sl_collect` parses and the sink write succeeds
again after every run of failures, the collection loop of `main` comes to
its end (for every sufficient fuel) and the records of the successful
`dl_write` calls are exactly the data-bearing records of the input, in
source order, each once; the bytes are those of the record after the
network-code rewrite, which are the bytes of the input when no override is
configured. -/
theorem collectLoop_delivers_each_data_record_once (L : LibMSeed) (cfg : Config) (env : Env)
    (packets : List SLpacket) (st : State)
    (hterm : ∀ n, env.terminate n = false)
    (hparse : ∀ p ∈ packets, p.dataBearing = true →
      L.unpack_status (translateNetcode L cfg p.msrecord) = MS_NOERROR)
    (hwrite : ∀ n, ∃ m, n ≤ m ∧ env.dl_write_ok m = true) :
    ∃ fuel0, ∀ fuel, fuel0 ≤ fuel →
      (collectLoop L cfg env fuel packets st).finished = true ∧
      delivered (collectLoop L cfg env fuel packets st).events =
        (packets.filter SLpacket.dataBearing).map (fun p => translateNetcode L cfg p.msrecord) ∧
      (cfg.netcode = none →
        delivered (collectLoop L cfg env fuel packets st).events =
          (packets.filter SLpacket.dataBearing).map SLpacket.msrecord) := by
  obtain ⟨fuel0, h⟩ := collectLoop_delivers L cfg env hterm hwrite packets st hparse
  refine ⟨fuel0, fun fuel hf => ⟨(h fuel hf).1, (h fuel hf).2, fun hn => ?_⟩⟩
  rw [(h fuel hf).2]
  simp [translateNetcode, hn]

/-- Witness of C1: three packets (data, keep-alive, data) against a sink
whose first two writes fail. -/
theorem collectLoop_delivers_each_data_record_once_witness :
    ∃ fuel0, ∀ fuel, fuel0 ≤ fuel →
      (collectLoop sampleLib {} flakyEnv fuel
        [⟨0, 1, sampleRecord "XX"⟩, ⟨9, 2, zeroRecord⟩, ⟨0, 3, sampleRecord "IU"⟩]
        loopStart).finished = true ∧
      delivered (collectLoop sampleLib {} flakyEnv fuel
        [⟨0, 1, sampleRecord "XX"⟩, ⟨9, 2, zeroRecord⟩, ⟨0, 3, sampleRecord "IU"⟩]
        loopStart).events =
        ([⟨0, 1, sampleRecord "XX"⟩, ⟨9, 2, zeroRecord⟩, ⟨0, 3, sampleRecord "IU"⟩].filter
          SLpacket.dataBearing).map (fun p => translateNetcode sampleLib {} p.msrecord) ∧
      (({} : Config).netcode = none →
        delivered (collectLoop sampleLib {} flakyEnv fuel
          [⟨0, 1, sampleRecord "XX"⟩, ⟨9, 2, zeroRecord⟩, ⟨0, 3, sampleRecord "IU"⟩]
          loopStart).events =
          ([⟨0, 1, sampleRecord "XX"⟩, ⟨9, 2, zeroRecord⟩, ⟨0, 3, sampleRecord "IU"⟩].filter
            SLpacket.dataBearing).map SLpacket.msrecord) :=
  collectLoop_delivers_each_data_record_once sampleLib {} flakyEnv _ loopStart
    (fun _ => rfl) (by decide)
    (fun n => ⟨n + 2, Nat.le_add_right n 2, by simp [flakyEnv]⟩)

/-- C2: for a record that parses, with termination not requested, when the
sink write fails `K` times in a row and then succeeds, the retry loop of
`main` comes to its end having called `dl_write` exactly `K + 1` times,
each time with the same record bytes, stream identity and time span (the
first `K` calls fail, the last succeeds), and having called `dl_connect`
exactly `K` times; the calls of `dl_connect` and `sleep` are those of
`backoffTrace`: after each failed reconnect attempt, and only then, a
`sleep (10)`. -/
theorem retryLoop_writes_K_plus_one_times (L : LibMSeed) (cfg : Config) (env : Env)
    (record : Bytes) (st : State) (K extra : Nat)
    (hparse : L.unpack_status (translateNetcode L cfg record) = MS_NOERROR)
    (hterm : ∀ n, env.terminate n = false)
    (hfail : ∀ i, i < K → env.dl_write_ok (st.nwrite + i) = false)
    (hok : env.dl_write_ok (st.nwrite + K) = true) :
    (retryLoop L cfg env (K + 1 + extra) record st).finished = true ∧
    (∃ streamid starttime endtime,
      (retryLoop L cfg env (K + 1 + extra) record st).events.filter Event.isWrite =
        List.replicate K (Event.dl_write (translateNetcode L cfg record) SLRECSIZE
          streamid starttime endtime cfg.writeack false)
        ++ [Event.dl_write (translateNetcode L cfg record) SLRECSIZE
          streamid starttime endtime cfg.writeack true]) ∧
    ((retryLoop L cfg env (K + 1 + extra) record st).events.filter Event.isConnect).length = K ∧
    (retryLoop L cfg env (K + 1 + extra) record st).events.filter
      (fun e => e.isConnect || e.isSleep) = backoffTrace env st.nconnect K := by
  obtain ⟨h1, -, -, -, h5, h6, h7⟩ :=
    retryLoop_fail_then_ok L cfg env hterm extra K record st hparse hfail hok
  exact ⟨h1, ⟨_, _, _, h5⟩, h6, h7⟩

/-- Witness of C2: two failed writes, then a success; of the two reconnect
attempts the first fails. -/
theorem retryLoop_writes_K_plus_one_times_witness :
    (retryLoop sampleLib {} flakyEnv (2 + 1 + 0) (sampleRecord "XX") loopStart).finished = true ∧
    (∃ streamid starttime endtime,
      (retryLoop sampleLib {} flakyEnv (2 + 1 + 0) (sampleRecord "XX") loopStart).events.filter
          Event.isWrite =
        List.replicate 2 (Event.dl_write (translateNetcode sampleLib {} (sampleRecord "XX"))
          SLRECSIZE streamid starttime endtime ({} : Config).writeack false)
        ++ [Event.dl_write (translateNetcode sampleLib {} (sampleRecord "XX")) SLRECSIZE
          streamid starttime endtime ({} : Config).writeack true]) ∧
    ((retryLoop sampleLib {} flakyEnv (2 + 1 + 0) (sampleRecord "XX") loopStart).events.filter
      Event.isConnect).length = 2 ∧
    (retryLoop sampleLib {} flakyEnv (2 + 1 + 0) (sampleRecord "XX") loopStart).events.filter
      (fun e => e.isConnect || e.isSleep) = backoffTrace flakyEnv loopStart.nconnect 2 :=
  retryLoop_writes_K_plus_one_times sampleLib {} flakyEnv (sampleRecord "XX") loopStart 2 0
    (by decide) (fun _ => rfl) (by decide) (by decide)

/-- C3 (what the code does): a data packet whose record does not parse,
followed by a good one, termination never requested and every reconnect
succeeding.  Whatever the fuel, the loop has not come to its end, no
`dl_write` was made, one `dl_connect` was made per pass of the retry loop,
and the second packet was never fetched. -/
theorem unparsable_record_is_retried_for_ever (fuel : Nat) :
    (collectLoop sampleLib {} calmEnv fuel
      [⟨0, 1, zeroRecord⟩, ⟨0, 2, sampleRecord "XX"⟩] loopStart).finished = false ∧
    (collectLoop sampleLib {} calmEnv fuel
      [⟨0, 1, zeroRecord⟩, ⟨0, 2, sampleRecord "XX"⟩] loopStart).events.filter
        Event.isWrite = [] ∧
    ((collectLoop sampleLib {} calmEnv fuel
      [⟨0, 1, zeroRecord⟩, ⟨0, 2, sampleRecord "XX"⟩] loopStart).events.filter
        Event.isConnect).length = fuel ∧
    (collectLoop sampleLib {} calmEnv fuel
      [⟨0, 1, zeroRecord⟩, ⟨0, 2, sampleRecord "XX"⟩] loopStart).events.filter
        Event.isCollect = [Event.sl_collect (some 1)] := by
  have hp : sampleLib.unpack_status (translateNetcode sampleLib {} zeroRecord) ≠ MS_NOERROR := by
    decide
  obtain ⟨h1, h2, h3, h4⟩ :=
    retryLoop_unparsed sampleLib {} calmEnv (fun _ => rfl) fuel zeroRecord loopStart hp
  have hd : SLDATA ≤ (0 : Int) ∧ (0 : Int) < SLNUM := by decide
  simp only [collectLoop, loopBody, hd, h1, receivedLog]
  simp [List.filter_append, h2, h3, h4, Event.isWrite, Event.isConnect, Event.isCollect]

theorem sendrecord_unpack_mem (L : LibMSeed) (cfg : Config) (env : Env) (record : Bytes)
    (st : State) :
    Event.msr_unpack (translateNetcode L cfg record)
      (L.unpack_status (translateNetcode L cfg record))
      ∈ (sendrecord L cfg env record SLRECSIZE st).events := by
  by_cases hs : L.unpack_status (translateNetcode L cfg record) = MS_NOERROR
  · rw [sendrecord_parsed L cfg env record st hs]; simp [hs]
  · rw [sendrecord_unparsed L cfg env record st hs]; simp

theorem retryLoop_succ_mem (L : LibMSeed) (cfg : Config) (env : Env) (fuel : Nat)
    (record : Bytes) (st : State) :
    ∀ e ∈ (sendrecord L cfg env record SLRECSIZE st).events,
      e ∈ (retryLoop L cfg env (fuel + 1) record st).events := by
  intro e he
  simp only [retryLoop]
  split_ifs <;> simp [he]

theorem loopBody_data_mem (L : LibMSeed) (cfg : Config) (env : Env) (fuel : Nat)
    (p : SLpacket) (st : State) (h : p.dataBearing = true) :
    ∀ e ∈ (retryLoop L cfg env fuel p.msrecord st).events,
      e ∈ (loopBody L cfg env fuel p st).events := by
  intro e he
  have h' : SLDATA ≤ p.ptype ∧ p.ptype < SLNUM := (dataBearing_iff p).1 h
  simp only [loopBody, if_pos h']
  split_ifs <;> simp [he]

/-- C4: for a packet with any of the ten type tags, numbered as in the table
`type[]` of `main`: no `dl_write` is made when the tag is Request, Info,
InfoTerminated or KeepAlive, and `sendrecord` is called (its first call,
`msr_unpack`, is made) exactly when the tag is one of Data, Detection,
Calibration, Timing, Message, General. -/
theorem sendrecord_called_only_for_data_tags (L : LibMSeed) (cfg : Config) (env : Env)
    (fuel : Nat) (t : PacketTag) (seqnum : Int) (record : Bytes) (st : State) :
    typeTable[t.code.toNat]? = some t.name ∧
    ((t = .Request ∨ t = .Info ∨ t = .InfoTerminated ∨ t = .KeepAlive) →
      ∀ e ∈ (loopBody L cfg env fuel ⟨t.code, seqnum, record⟩ st).events,
        e.isWrite = false ∧ e.isUnpack = false) ∧
    ((∃ e ∈ (loopBody L cfg env (fuel + 1) ⟨t.code, seqnum, record⟩ st).events,
        e.isUnpack = true) ↔
      (t = .Data ∨ t = .Detection ∨ t = .Calibration ∨ t = .Timing ∨ t = .Message
        ∨ t = .General)) := by
  have hnot : ∀ p : SLpacket, p.dataBearing = false →
      ∀ n, ∀ e ∈ (loopBody L cfg env n p st).events, e.isWrite = false ∧ e.isUnpack = false := by
    intro p hp n e he
    rw [loopBody_not_data L cfg env n p st hp] at he
    simp only [List.mem_cons, List.mem_append] at he
    rcases he with (he | he) | he
    · subst he; exact ⟨rfl, rfl⟩
    · exact ⟨(receivedLog_no_write cfg p e he).1, (receivedLog_no_write cfg p e he).2.1⟩
    · exact ⟨(checkpoint_no_write cfg st e he).1, (checkpoint_no_write cfg st e he).2.1⟩
  have hyes : ∀ p : SLpacket, p.dataBearing = true →
      ∃ e ∈ (loopBody L cfg env (fuel + 1) p st).events, e.isUnpack = true := by
    intro p hp
    exact ⟨_, loopBody_data_mem L cfg env _ p st hp _
      (retryLoop_succ_mem L cfg env fuel p.msrecord st _
        (sendrecord_unpack_mem L cfg env p.msrecord st)), rfl⟩
  refine ⟨by cases t <;> rfl, ?_, ?_⟩
  · intro ht
    apply hnot
    rcases ht with h | h | h | h <;> subst h <;> rfl
  · constructor
    · intro ⟨e, he, hu⟩
      cases t
      case Request =>
        exact absurd hu (by simp [(hnot ⟨PacketTag.Request.code, seqnum, record⟩ rfl _ e he).2])
      case Info =>
        exact absurd hu (by simp [(hnot ⟨PacketTag.Info.code, seqnum, record⟩ rfl _ e he).2])
      case InfoTerminated =>
        exact absurd hu (by simp [(hnot ⟨PacketTag.InfoTerminated.code, seqnum, record⟩ rfl _ e he).2])
      case KeepAlive =>
        exact absurd hu (by simp [(hnot ⟨PacketTag.KeepAlive.code, seqnum, record⟩ rfl _ e he).2])
      all_goals simp
    · intro ht
      apply hyes
      rcases ht with h | h | h | h | h | h <;> subst h <;> rfl

/-- C5 (what the code does): with a state file and checkpoint interval 2,
two data records, each forwarded on the first attempt, from a zero counter:
both records are written, and `sl_savestate` is called in the loop after
the first record and again after the second.  With interval 3 and three
such records the one call of `sl_savestate` comes after the second record,
before the third is fetched. -/
theorem interval_two_saves_after_every_record :
    delivered (collectLoop sampleLib { statefile := some "state", stateint := 2 } calmEnv 1
      [⟨0, 1, sampleRecord "XX"⟩, ⟨0, 2, sampleRecord "IU"⟩]
      { loopStart with packetcnt := 0 }).events = [sampleRecord "XX", sampleRecord "IU"] ∧
    (collectLoop sampleLib { statefile := some "state", stateint := 2 } calmEnv 1
      [⟨0, 1, sampleRecord "XX"⟩, ⟨0, 2, sampleRecord "IU"⟩]
      { loopStart with packetcnt := 0 }).events.filter
        (fun e => e.isCollect || e.isSavestate)
      = [Event.sl_collect (some 1),
         Event.sl_savestate "state",
         Event.sl_collect (some 2),
         Event.sl_savestate "state",
         Event.sl_collect none] ∧
    (collectLoop sampleLib { statefile := some "state", stateint := 3 } calmEnv 1
      [⟨0, 1, sampleRecord "XX"⟩, ⟨0, 2, sampleRecord "IU"⟩, ⟨0, 3, sampleRecord "XX"⟩]
      { loopStart with packetcnt := 0 }).events.filter
        (fun e => e.isCollect || e.isSavestate)
      = [Event.sl_collect (some 1),
         Event.sl_collect (some 2),
         Event.sl_savestate "state",
         Event.sl_collect (some 3),
         Event.sl_collect none] := by
  refine ⟨rfl, ?_, ?_⟩
  · decide
  · decide

/-! ## Lemmas on `parameter_proc` -/

theorem timeWindow_error_quiet (tw : String) (e : Event)
    (h : timeWindow tw = .error e) : e.isQuiet = true := by
  unfold timeWindow at h
  by_cases h1 : ':' ∉ tw.toList
  · rw [if_pos h1] at h; cases h; rfl
  · rw [if_neg h1] at h
    by_cases h2 : (sl_strparse ':' tw.toList).length > 2
    · simp only [if_pos h2] at h; cases h; rfl
    · simp only [if_neg h2] at h
      cases hs : sl_strparse ':' tw.toList with
      | nil => rw [hs] at h; cases h; rfl
      | cons b tl =>
        rw [hs] at h
        by_cases hb : b.length = 0
        · simp only [if_pos hb] at h; cases h; rfl
        · simp only [if_neg hb] at h
          cases tl with
          | nil => cases h
          | cons e1 tl1 =>
            by_cases h3 : tl1 ≠ []
            · simp only [if_pos h3] at h; cases h; rfl
            · simp only [if_neg h3] at h; cases h

theorem streamlistEvents_quiet (o : Opts) : ∀ e ∈ streamlistEvents o, e.isQuiet = true := by
  intro e he
  unfold streamlistEvents at he
  cases h : o.streamfile <;> simp [h] at he
  subst he; rfl

theorem timeWindowOf_error_quiet (o : Opts) (e : Event)
    (h : timeWindowOf o = .error e) : e.isQuiet = true := by
  unfold timeWindowOf at h
  cases ht : o.timewin with
  | none => simp [ht] at h
  | some t =>
    simp only [ht] at h
    cases hq : timeWindow t with
    | error e2 => simp only [hq] at h; cases h; exact timeWindow_error_quiet t _ hq
    | ok v => simp only [hq] at h; cases h

theorem selectStreams_quiet (env : Env) (o : Opts) :
    ∀ e ∈ (selectStreams env o).1, e.isQuiet = true := by
  intro e he
  unfold selectStreams at he
  cases h : o.multiselect with
  | some m => simp [h] at he; subst he; rfl
  | none =>
    simp only [h] at he
    split_ifs at he <;> simp at he
    subst he; rfl

theorem recoverState_quiet (env : Env) (path : String) :
    ∀ e ∈ recoverState env path, e.isQuiet = true := by
  intro e he
  unfold recoverState at he
  split_ifs at he <;> simp at he
  · rcases he with rfl | rfl <;> rfl
  · subst he; rfl

theorem configure_events_quiet (env : Env) (n : Nat) (o : Opts) :
    ∀ e ∈ (configure env n o).events, e.isQuiet = true := by
  intro e he
  have q0 : ∀ x ∈ [Event.sl_log 1 "%s version: %s\n"] ++ streamlistEvents o,
      x.isQuiet = true := by
    intro x hx
    simp only [List.mem_append, List.mem_singleton] at hx
    rcases hx with rfl | hx
    · rfl
    · exact streamlistEvents_quiet o x hx
  unfold configure at he
  simp only at he
  by_cases h1 : n ≤ 1
  · rw [if_pos h1] at he
    simp at he; rcases he with rfl | rfl <;> rfl
  · rw [if_neg h1] at he
    cases htw : timeWindowOf o with
    | error e1 =>
      simp only [htw, List.mem_append, List.mem_singleton] at he
      rcases he with (rfl | he) | rfl
      · rfl
      · exact streamlistEvents_quiet o e he
      · exact timeWindowOf_error_quiet o _ htw
    | ok v =>
      simp only [htw] at he
      by_cases h2 : (selectStreams env o).2 = true
      · rw [if_pos h2] at he
        simp only [List.mem_append] at he
        rcases he with he | he
        · exact q0 e (by simpa using he)
        · exact selectStreams_quiet env o e he
      · rw [if_neg h2] at he
        cases hsf : o.statefile with
        | none =>
          simp only [hsf, List.mem_append] at he
          rcases he with he | he
          · exact q0 e (by simpa using he)
          · exact selectStreams_quiet env o e he
        | some sf =>
          simp only [hsf] at he
          by_cases h3 : (stateInterval sf 0).2.2 = true
          · rw [if_pos h3] at he
            simp only [List.mem_append, List.mem_singleton] at he
            rcases he with (he | he) | rfl
            · exact q0 e (by simpa using he)
            · exact selectStreams_quiet env o e he
            · rfl
          · rw [if_neg h3] at he
            simp only [List.mem_append] at he
            rcases he with (he | he) | he
            · exact q0 e (by simpa using he)
            · exact selectStreams_quiet env o e he
            · exact recoverState_quiet env _ e he

theorem parameter_proc_returned (env : Env) (argv : List String) (rv : Int)
    (h : (parameter_proc env argv).rv = some rv) :
    ∃ o, argLoop argv.tail {} = .ok o ∧ o.sladdress ≠ none ∧ o.dladdress ≠ none ∧
      parameter_proc env argv = configure env argv.length o := by
  unfold parameter_proc at h ⊢
  cases ha : argLoop argv.tail {} with
  | error x => simp [ha, ProcRun.rv] at h
  | ok o =>
    simp only [ha] at h ⊢
    by_cases h1 : o.sladdress = none
    · simp [h1, ProcRun.rv] at h
    · by_cases h2 : o.dladdress = none
      · simp [h1, h2, ProcRun.rv] at h
      · by_cases h3 : env.sl_newslcd_ok = true
        · by_cases h4 : env.dl_newdlcp_ok = true
          · exact ⟨o, rfl, h1, h2, by simp [h1, h2, h3, h4]⟩
          · simp [h1, h2, h3, h4, ProcRun.rv] at h
        · simp [h1, h2, h3, ProcRun.rv] at h

theorem parameter_proc_events_quiet (env : Env) (argv : List String) (rv : Int)
    (h : (parameter_proc env argv).rv = some rv) :
    ∀ e ∈ (parameter_proc env argv).events, e.isQuiet = true := by
  obtain ⟨o, -, -, -, hc⟩ := parameter_proc_returned env argv rv h
  rw [hc]
  exact configure_events_quiet env _ o

theorem main_of_config_error (L : LibMSeed) (env : Env) (fuel : Nat) (argv : List String)
    (packets : List SLpacket) (h : (parameter_proc env argv).rv = some (-1)) :
    main L env fuel argv packets =
      ⟨(parameter_proc env argv).events ++ [.stderr "Argument processing failed\n",
          .stderr "Try '-h' for detailed help\n"], some (-1)⟩ := by
  unfold main
  simp only [ProcRun.rv] at h
  cases hr : (parameter_proc env argv).result with
  | exited c => simp [hr] at h
  | returned rv cfg =>
    simp only [hr, Option.some.injEq] at h
    subst h
    simp [hr]


/-- C9 (counterexample): an argument vector that names both servers and
has a time window without ':'; `parameter_proc` detects the error and
returns -1, and the status with which `main` ends is -1, not 1. -/
theorem config_error_status_is_not_one :
    (parameter_proc calmEnv
      ["slink2dali", "-tw", "2002,08,05,14,00,00", "slhost", "dlhost"]).rv = some (-1) ∧
    (main sampleLib calmEnv 0
      ["slink2dali", "-tw", "2002,08,05,14,00,00", "slhost", "dlhost"] []).status = some (-1) ∧
    ¬ (main sampleLib calmEnv 0
      ["slink2dali", "-tw", "2002,08,05,14,00,00", "slhost", "dlhost"] []).status = some 1 := by
  decide

/-- C9 (amended): whenever `parameter_proc` returns -1 (it has detected a
configuration error, such as a malformed time window or an invalid
checkpoint interval), `main` prints "Argument processing failed" and
returns -1. -/
theorem config_error_status_is_minus_one (L : LibMSeed) (env : Env) (fuel : Nat)
    (argv : List String) (packets : List SLpacket)
    (h : (parameter_proc env argv).rv = some (-1)) :
    (main L env fuel argv packets).status = some (-1) ∧
    (main L env fuel argv packets).events =
      (parameter_proc env argv).events ++ [.stderr "Argument processing failed\n",
        .stderr "Try '-h' for detailed help\n"] := by
  rw [main_of_config_error L env fuel argv packets h]
  exact ⟨rfl, rfl⟩

/-- Witness of C9 (amended): an invalid checkpoint interval suffix. -/
theorem config_error_status_is_minus_one_witness :
    (main sampleLib calmEnv 0 ["slink2dali", "-x", "state:12a", "slhost", "dlhost"] []).status
      = some (-1) ∧
    (main sampleLib calmEnv 0 ["slink2dali", "-x", "state:12a", "slhost", "dlhost"] []).events =
      (parameter_proc calmEnv ["slink2dali", "-x", "state:12a", "slhost", "dlhost"]).events
        ++ [.stderr "Argument processing failed\n", .stderr "Try '-h' for detailed help\n"] :=
  config_error_status_is_minus_one sampleLib calmEnv 0
    ["slink2dali", "-x", "state:12a", "slhost", "dlhost"] [] (by decide)

/-- C10 (what the code does): the state file argument `state:4294967297`;
the suffix has the value 2^32 + 1, outside 0..10^9, yet `parameter_proc`
returns 0 with `stateint` = 1 and the state file name `state`. -/
theorem interval_above_32_bits_is_accepted :
    (parameter_proc calmEnv
      ["slink2dali", "-x", "state:4294967297", "slhost", "dlhost"]).result =
      .returned 0 { statefile := some "state", stateint := 1 } ∧
    strtoul "4294967297".toList = (4294967297, []) := by
  decide


theorem loopBody_head (L : LibMSeed) (cfg : Config) (env : Env) (fuel : Nat)
    (p : SLpacket) (st : State) :
    ∃ rest, (loopBody L cfg env fuel p st).events = Event.sl_collect (some p.seqnum) :: rest := by
  by_cases h1 : SLDATA ≤ p.ptype ∧ p.ptype < SLNUM
  · by_cases h2 : (retryLoop L cfg env fuel p.msrecord st).finished = true
    · simp only [loopBody, if_pos h1, if_pos h2]
      exact ⟨_, rfl⟩
    · simp only [loopBody, if_pos h1, if_neg h2]
      exact ⟨_, rfl⟩
  · simp only [loopBody, if_neg h1]
    exact ⟨_, rfl⟩

theorem collectLoop_head (L : LibMSeed) (cfg : Config) (env : Env) (fuel : Nat)
    (packets : List SLpacket) (st : State) :
    ∃ c rest, (collectLoop L cfg env fuel packets st).events = c :: rest ∧
      c.isCollect = true := by
  cases packets with
  | nil => exact ⟨Event.sl_collect none, [], rfl, rfl⟩
  | cons p ps =>
    obtain ⟨rest, hb⟩ := loopBody_head L cfg env fuel p st
    by_cases h : (loopBody L cfg env fuel p st).finished = true
    · simp only [collectLoop, if_pos h, hb]
      exact ⟨Event.sl_collect (some p.seqnum), _, rfl, rfl⟩
    · simp only [collectLoop, if_neg h, hb]
      exact ⟨Event.sl_collect (some p.seqnum), _, rfl, rfl⟩

theorem runFrom_head (L : LibMSeed) (cfg : Config) (env : Env) (fuel : Nat)
    (packets : List SLpacket) (st : State) :
    ∃ c rest, (runFrom L cfg env fuel packets st).events = c :: rest ∧
      c.isCollect = true := by
  obtain ⟨c, rest, hc, hi⟩ := collectLoop_head L cfg env fuel packets st
  by_cases h : (collectLoop L cfg env fuel packets st).finished = true
  · simp only [runFrom, if_pos h, hc]
    exact ⟨c, _, rfl, hi⟩
  · simp only [runFrom, if_neg h, hc]
    exact ⟨c, _, rfl, hi⟩

/-- C7 (counterexample): `dl_connect` fails twice and would succeed the
third time.  `main` calls it once, does not sleep, does not enter the
collection loop, and returns -1. -/
theorem startup_connect_failure_ends_main :
    (parameter_proc lateSinkEnv ["slink2dali", "slhost", "dlhost"]).rv = some 0 ∧
    (main sampleLib lateSinkEnv 5 ["slink2dali", "slhost", "dlhost"]
      [⟨0, 1, sampleRecord "XX"⟩]).status = some (-1) ∧
    (main sampleLib lateSinkEnv 5 ["slink2dali", "slhost", "dlhost"]
      [⟨0, 1, sampleRecord "XX"⟩]).events.filter
        (fun e => e.isConnect || e.isSleep || e.isCollect) = [Event.dl_connect false] := by
  decide

/-- C7 (amended): after a successful `parameter_proc`, which makes no
connection attempt, sleep or fetch, `main` calls `dl_connect` once.  When
that call succeeds (`K = 0`) the very next call is the first `sl_collect`
of the collection loop, and `main` goes on as that loop and the shutdown
do, from the state with one `dl_connect` made and the link up; when it
fails (`K > 0`), however soon a later call would succeed, `main` logs one
error and returns -1, without a sleep, a second attempt or a fetch from
the source. -/
theorem startup_connect_is_tried_once (L : LibMSeed) (env : Env) (fuel : Nat)
    (argv : List String) (packets : List SLpacket) (K : Nat)
    (hcfg : (parameter_proc env argv).rv = some 0)
    (hfail : ∀ i, i < K → env.dl_connect_ok i = false)
    (hok : env.dl_connect_ok K = true) :
    (parameter_proc env argv).events.filter
      (fun e => e.isConnect || e.isSleep || e.isCollect) = [] ∧
    (K = 0 → ∃ cfg c rest,
      (parameter_proc env argv).result = .returned 0 cfg ∧
      (runFrom L cfg env fuel packets { nconnect := 1, dllink := true }).events = c :: rest ∧
      c.isCollect = true ∧
      (main L env fuel argv packets).events =
        (parameter_proc env argv).events ++ Event.dl_connect true :: c :: rest ∧
      (main L env fuel argv packets).status =
        (runFrom L cfg env fuel packets { nconnect := 1, dllink := true }).status) ∧
    (0 < K →
      (main L env fuel argv packets).status = some (-1) ∧
      (main L env fuel argv packets).events =
        (parameter_proc env argv).events ++
          [.dl_connect false, .sl_log 2 "Error connecting to DataLink server\n"] ∧
      (main L env fuel argv packets).events.filter
        (fun e => e.isConnect || e.isSleep || e.isCollect) = [Event.dl_connect false]) := by
  have hq := parameter_proc_events_quiet env argv 0 hcfg
  have hf : (parameter_proc env argv).events.filter
      (fun e => e.isConnect || e.isSleep || e.isCollect) = [] := by
    rw [List.filter_eq_nil_iff]
    intro e he
    have := hq e he
    simp [Event.isQuiet] at this
    simp [this.1.1.1, this.1.1.2, this.1.2]
  simp only [ProcRun.rv] at hcfg
  cases hr : (parameter_proc env argv).result with
  | exited c => simp [hr] at hcfg
  | returned rv cfg =>
    simp only [hr, Option.some.injEq] at hcfg
    subst hcfg
    refine ⟨hf, ?_, ?_⟩
    · intro hK
      subst hK
      obtain ⟨c, rest, hc, hi⟩ := runFrom_head L cfg env fuel packets
        { nconnect := 1, dllink := true }
      refine ⟨cfg, c, rest, rfl, hc, hi, ?_, ?_⟩
      · simp [main, hr, hok, hc]
      · simp [main, hr, hok]
    · intro hK
      have h0 := hfail 0 hK
      have hmain : main L env fuel argv packets =
          ⟨(parameter_proc env argv).events ++
            [.dl_connect false, .sl_log 2 "Error connecting to DataLink server\n"],
           some (-1)⟩ := by
        simp [main, hr, h0]
      rw [hmain]
      refine ⟨rfl, rfl, ?_⟩
      rw [List.filter_append, hf]
      rfl

/-- Witness of C7 (amended): two failures before the sink would accept. -/
theorem startup_connect_is_tried_once_witness :
    (parameter_proc lateSinkEnv ["slink2dali", "slhost", "dlhost"]).events.filter
      (fun e => e.isConnect || e.isSleep || e.isCollect) = [] ∧
    ((2 : Nat) = 0 → ∃ cfg c rest,
      (parameter_proc lateSinkEnv ["slink2dali", "slhost", "dlhost"]).result
        = .returned 0 cfg ∧
      (runFrom sampleLib cfg lateSinkEnv 5 [⟨0, 1, sampleRecord "XX"⟩]
        { nconnect := 1, dllink := true }).events = c :: rest ∧
      c.isCollect = true ∧
      (main sampleLib lateSinkEnv 5 ["slink2dali", "slhost", "dlhost"]
        [⟨0, 1, sampleRecord "XX"⟩]).events =
        (parameter_proc lateSinkEnv ["slink2dali", "slhost", "dlhost"]).events
          ++ Event.dl_connect true :: c :: rest ∧
      (main sampleLib lateSinkEnv 5 ["slink2dali", "slhost", "dlhost"]
        [⟨0, 1, sampleRecord "XX"⟩]).status =
        (runFrom sampleLib cfg lateSinkEnv 5 [⟨0, 1, sampleRecord "XX"⟩]
          { nconnect := 1, dllink := true }).status) ∧
    (0 < 2 →
      (main sampleLib lateSinkEnv 5 ["slink2dali", "slhost", "dlhost"]
        [⟨0, 1, sampleRecord "XX"⟩]).status = some (-1) ∧
      (main sampleLib lateSinkEnv 5 ["slink2dali", "slhost", "dlhost"]
        [⟨0, 1, sampleRecord "XX"⟩]).events =
        (parameter_proc lateSinkEnv ["slink2dali", "slhost", "dlhost"]).events ++
          [.dl_connect false, .sl_log 2 "Error connecting to DataLink server\n"] ∧
      (main sampleLib lateSinkEnv 5 ["slink2dali", "slhost", "dlhost"]
        [⟨0, 1, sampleRecord "XX"⟩]).events.filter
        (fun e => e.isConnect || e.isSleep || e.isCollect) = [Event.dl_connect false]) :=
  startup_connect_is_tried_once sampleLib lateSinkEnv 5 ["slink2dali", "slhost", "dlhost"]
    [⟨0, 1, sampleRecord "XX"⟩] 2 (by decide) (by decide) (by decide)

theorem set_two (r : Bytes) (off : Nat) (a b : Char) (h : off + 2 ≤ r.length) :
    (r.set off a).set (off + 1) b = r.take off ++ [a, b] ++ r.drop (off + 2) := by
  induction off generalizing r with
  | zero =>
    match r, h with
    | x :: y :: rest, _ => simp
  | succ n ih =>
    cases r with
    | nil => simp at h
    | cons x rest =>
      have := ih rest (by simpa using h)
      simpa using this

theorem networkField_rewritten (L : LibMSeed) (r : Bytes) (a b : Char)
    (h : L.network_offset + 2 ≤ r.length) :
    networkField L (r.take L.network_offset ++ [a, b] ++ r.drop (L.network_offset + 2))
      = [a, b] := by
  unfold networkField
  have hl : (r.take L.network_offset).length = L.network_offset := by
    rw [List.length_take]; omega
  rw [List.append_assoc, List.drop_left' hl]
  simp

/-- C8: with a two-character override `c` set by `-N`, for a record of
`SLRECSIZE` bytes whose header (after the rewrite) parses: the bytes that
`sendrecord` hands to `msr_unpack` and then to `dl_write` are the input
with the two bytes of the network field replaced by `c` and every other
byte unchanged, and the stream identity passed to `dl_write` is `c`, then
'_', ..., then `/MSEED`. -/
theorem netcode_override_is_delivered (L : LibMSeed) (cfg : Config) (env : Env)
    (record : Bytes) (st : State) (c : String)
    (hnet : cfg.netcode = some c) (hc : c.length = 2)
    (hlen : record.length = SLRECSIZE) (hoff : L.network_offset + 2 ≤ SLRECSIZE)
    (hparse : L.unpack_status (translateNetcode L cfg record) = MS_NOERROR) :
    translateNetcode L cfg record =
      record.take L.network_offset ++ c.toList ++ record.drop (L.network_offset + 2) ∧
    networkField L (translateNetcode L cfg record) = c.toList ∧
    ∃ rest starttime endtime ok,
      (sendrecord L cfg env record SLRECSIZE st).events =
        [.msr_unpack (translateNetcode L cfg record) MS_NOERROR,
         .dl_write (translateNetcode L cfg record) SLRECSIZE
           (c.toList ++ '_' :: rest ++ "/MSEED".toList) starttime endtime cfg.writeack ok] := by
  obtain ⟨a, b, hab⟩ : ∃ a b, c.toList = [a, b] := by
    have : c.toList.length = 2 := hc
    match hcl : c.toList, this with
    | [a, b], _ => exact ⟨a, b, rfl⟩
  have hoff' : L.network_offset + 2 ≤ record.length := by rw [hlen]; exact hoff
  have ht : translateNetcode L cfg record =
      record.take L.network_offset ++ [a, b] ++ record.drop (L.network_offset + 2) := by
    simp only [translateNetcode, hnet, ms_strncpopen_two, poke_two, hab]
    simpa using set_two record L.network_offset a b hoff'
  have hn : networkField L (translateNetcode L cfg record) = [a, b] := by
    rw [ht]; exact networkField_rewritten L record a b hoff'
  refine ⟨by rw [ht, hab], by rw [hn, hab], ?_⟩
  refine ⟨L.station (translateNetcode L cfg record) ++ '_' ::
      L.location (translateNetcode L cfg record) ++ '_' ::
      L.channel (translateNetcode L cfg record),
    L.starttime (translateNetcode L cfg record), L.endtime (translateNetcode L cfg record),
    env.dl_write_ok st.nwrite, ?_⟩
  rw [sendrecord_parsed L cfg env record st hparse]
  simp only [writeCall, streamIdOf, msr_unpack, hparse, if_true, msr_srcname, hn, hab]
  simp

theorem sampleRecord_length (net : String) (h : net.length = 2) :
    (sampleRecord net).length = SLRECSIZE := by
  have h' : net.toList.length = 2 := h
  unfold sampleRecord
  rw [List.length_append, List.length_append, List.length_replicate, h']
  rfl

/-- Witness of C8: a record with network code XX and the override IU. -/
theorem netcode_override_is_delivered_witness :
    translateNetcode sampleLib { netcode := some "IU" } (sampleRecord "XX") =
      (sampleRecord "XX").take sampleLib.network_offset ++ "IU".toList
        ++ (sampleRecord "XX").drop (sampleLib.network_offset + 2) ∧
    networkField sampleLib (translateNetcode sampleLib { netcode := some "IU" }
      (sampleRecord "XX")) = "IU".toList ∧
    ∃ rest starttime endtime ok,
      (sendrecord sampleLib { netcode := some "IU" } calmEnv (sampleRecord "XX")
        SLRECSIZE loopStart).events =
        [.msr_unpack (translateNetcode sampleLib { netcode := some "IU" } (sampleRecord "XX"))
           MS_NOERROR,
         .dl_write (translateNetcode sampleLib { netcode := some "IU" } (sampleRecord "XX"))
           SLRECSIZE ("IU".toList ++ '_' :: rest ++ "/MSEED".toList) starttime endtime
           ({ netcode := some "IU" } : Config).writeack ok] :=
  netcode_override_is_delivered sampleLib { netcode := some "IU" } calmEnv (sampleRecord "XX")
    loopStart "IU" rfl rfl (sampleRecord_length "XX" rfl) (by decide) rfl

end Slink2dali
